import Mathlib

/-!
Verification of the MoveCRM auth / rate-limiting core.

Shallow embedding of `src/crmai/rate_limiting.py`, `src/crmai/auth.py` and the
relevant parts of `src/crmai/app_secure.py` into Lean 4, together with theorems
settling the specification's claims about them.

Conventions:
* time is Unix time in whole seconds (`Nat`), as produced by `time.time()` /
  `datetime.utcnow()`; arithmetic on timestamps that may go below a reference
  point is done in `Int`, matching Python's non-truncating arithmetic;
* Python `dict`-backed Redis state is a total function `String → Nat`
  (a missing key reads as 0, exactly how `check_rate_limit` treats `None`);
* Python exceptions become `Except` errors carrying the exception's message;
* Python truthiness of optional strings (`if not tenant_id:` and friends) is
  the explicit predicate `truthyO`.
-/

/-- Python truthiness of an optional string: `None` and `""` are falsy. -/
def truthyO : Option String → Bool
  | none => false
  | some s => s ≠ ""

/- ## Rate limiter (`src/crmai/rate_limiting.py`) -/

/-- The `rate_limit_info` dictionary returned by `RateLimiter.check_rate_limit`
and `RateLimiter._check_rate_limit_db`. -/
structure RateInfo where
  limit : Nat
  remaining : Nat
  reset_time : Nat
  window_minutes : Nat
deriving DecidableEq, Repr

/-- Redis keyspace: every key holds a counter, absent keys read as 0
(`current_count = int(current_count) if current_count else 0`). -/
def RedisState := String → Nat

/-- The all-empty Redis keyspace. -/
def emptyRedis : RedisState := fun _ => 0

/-- The key string for a given bucket number:
`f"rate_limit:{identifier}:{endpoint}:{window_start}"`. -/
def keyOfBucket (identifier endpoint : String) (bucket : Nat) : String :=
  "rate_limit:" ++ identifier ++ ":" ++ endpoint ++ ":" ++ toString bucket

/-- Embedding of `RateLimiter._get_rate_limit_key`: the bucket is
`int(time.time() // (window_minutes * 60))`. -/
def _get_rate_limit_key (identifier endpoint : String) (window_minutes now : Nat) : String :=
  keyOfBucket identifier endpoint (now / (window_minutes * 60))

/-- Embedding of `RateLimiter.check_rate_limit` on the Redis (fast) path.  Reads the bucket
counter; if `current_count >= limit` it denies with `remaining = 0` and does not
touch the store; otherwise it increments the bucket counter (the accompanying
`EXPIRE` only bounds the key's lifetime in Redis and has no effect on the
counting behaviour, so it is not part of the state model) and allows with
`remaining = limit - (current_count + 1)`.  Returns the `(is_allowed, info)`
pair of the source together with the Redis state after the call. -/
def check_rate_limit (s : RedisState) (identifier endpoint : String)
    (limit window_minutes now : Nat) : (Bool × RateInfo) × RedisState :=
  let key := _get_rate_limit_key identifier endpoint window_minutes now
  let current_count := s key
  if current_count ≥ limit then
    ((false, ⟨limit, 0, now + window_minutes * 60, window_minutes⟩), s)
  else
    (((true, ⟨limit, limit - (current_count + 1), now + window_minutes * 60, window_minutes⟩)),
      fun k => if k = key then current_count + 1 else s k)

/-- A row of the `rate_limits` table used by the database fallback. -/
structure RateRow where
  identifier : String
  endpoint : String
  created_at : Nat
deriving DecidableEq, Repr

/-- The `WHERE identifier = %s AND endpoint = %s AND created_at > %s` predicate
of `_check_rate_limit_db`, with `window_start = utcnow() - window_minutes`
computed without truncation (hence in `Int`). -/
def rowInWindow (identifier endpoint : String) (window_minutes now : Nat) (r : RateRow) : Bool :=
  r.identifier = identifier && r.endpoint = endpoint &&
    decide ((r.created_at : Int) > (now : Int) - (window_minutes : Int) * 60)

/-- Embedding of `RateLimiter._check_rate_limit_db`: the durable-store fallback.  Counts the
rows for `(identifier, endpoint)` created after `now - window_minutes`; if the
count reaches `limit` it denies with `remaining = 0`, otherwise it inserts a row
at `utcnow()` and allows with `remaining = limit - (current_count + 1)`. -/
def _check_rate_limit_db (rows : List RateRow) (identifier endpoint : String)
    (limit window_minutes now : Nat) : (Bool × RateInfo) × List RateRow :=
  let current_count := rows.countP fun r => rowInWindow identifier endpoint window_minutes now r
  if current_count ≥ limit then
    ((false, ⟨limit, 0, now + window_minutes * 60, window_minutes⟩), rows)
  else
    ((true, ⟨limit, limit - (current_count + 1), now + window_minutes * 60, window_minutes⟩),
      rows ++ [⟨identifier, endpoint, now⟩])

/-- Run a sequence of `check_rate_limit` calls (one per listed timestamp) on the
fast path, threading the Redis state and collecting each call's
`(is_allowed, info)`. -/
def runRedis (identifier endpoint : String) (limit window_minutes : Nat) :
    List Nat → RedisState → List (Bool × RateInfo) × RedisState
  | [], s => ([], s)
  | now :: ts, s =>
    let r := check_rate_limit s identifier endpoint limit window_minutes now
    let rest := runRedis identifier endpoint limit window_minutes ts r.2
    (r.1 :: rest.1, rest.2)

/-- Run a sequence of `_check_rate_limit_db` calls (one per listed timestamp) on
the fallback path, threading the table contents and collecting each call's
`(is_allowed, info)`. -/
def runDb (identifier endpoint : String) (limit window_minutes : Nat) :
    List Nat → List RateRow → List (Bool × RateInfo) × List RateRow
  | [], rows => ([], rows)
  | now :: ts, rows =>
    let r := _check_rate_limit_db rows identifier endpoint limit window_minutes now
    let rest := runDb identifier endpoint limit window_minutes ts r.2
    (r.1 :: rest.1, rest.2)

/- ## Policy table and the `apply_rate_limit` decorator -/

/-- One entry of the `RATE_LIMITS` configuration dictionary. -/
structure RateConfig where
  limit : Nat
  window : Nat
deriving DecidableEq, Repr

/-- The `RATE_LIMITS` dictionary of `rate_limiting.py`. -/
def RATE_LIMITS : String → Option RateConfig := fun e =>
  if e = "default" then some ⟨100, 1⟩
  else if e = "auth_login" then some ⟨5, 5⟩
  else if e = "auth_register" then some ⟨3, 60⟩
  else if e = "quote_create" then some ⟨10, 1⟩
  else if e = "quote_list" then some ⟨50, 1⟩
  else if e = "file_upload" then some ⟨20, 5⟩
  else if e = "ai_detection" then some ⟨5, 1⟩
  else if e = "public_quote" then some ⟨20, 5⟩
  else none

/-- Embedding of `get_rate_limit_config`: `RATE_LIMITS.get(endpoint, RATE_LIMITS['default'])`. -/
def get_rate_limit_config (endpoint : String) : RateConfig :=
  (RATE_LIMITS endpoint).getD ⟨100, 1⟩

/-- The JWT payload dictionary `{user_id, tenant_id, role, exp, iat}` attached
to `request.current_user` after `decode_jwt_token`. -/
structure JwtPayload where
  user_id : String
  tenant_id : String
  role : String
  exp : Nat
  iat : Nat
deriving DecidableEq, Repr

/-- The slice of a Flask `request` that the rate-limiting and auth decorators
read: the three client-address sources, the `X-Tenant-Slug` header, and the
`current_user` payload attached by `require_auth` (absent on unauthenticated
requests). A header that was not sent is `none`. -/
structure Request where
  x_forwarded_for : Option String
  x_real_ip : Option String
  remote_addr : Option String
  x_tenant_slug : Option String
  current_user : Option JwtPayload
deriving Repr

/-- Embedding of `RateLimiter._get_client_ip`: first entry of `X-Forwarded-For` (stripped)
if that header is truthy, else `X-Real-IP` if truthy, else
`request.remote_addr or '127.0.0.1'`. -/
def _get_client_ip (req : Request) : String :=
  if truthyO req.x_forwarded_for then
    (((req.x_forwarded_for.getD "").splitOn ",").headD "").trim
  else if truthyO req.x_real_ip then
    req.x_real_ip.getD ""
  else
    match req.remote_addr with
    | some a => if a = "" then "127.0.0.1" else a
    | none => "127.0.0.1"

/-- The tenant-identity resolution inside `apply_rate_limit`'s `per_tenant`
branch: take `current_user['tenant_id']` when present and truthy, otherwise
fall back to `f"slug:{tenant_slug}"` from the `X-Tenant-Slug` header when that
is truthy; yield `none` when the final value is still falsy. -/
def resolve_tenant_id (req : Request) : Option String :=
  let tid0 : Option String := req.current_user.map fun u => u.tenant_id
  let tid1 : Option String :=
    if truthyO tid0 then tid0
    else match req.x_tenant_slug with
      | some slug => if slug = "" then tid0 else some ("slug:" ++ slug)
      | none => tid0
  if truthyO tid1 then tid1 else none

/-- Outcome of running the decorated endpoint: either a 429 rejection built
from the failing check's `rate_info` (the same info also populates the
`X-RateLimit-Limit` / `X-RateLimit-Remaining` / `X-RateLimit-Reset` and
`Retry-After` headers), or fall-through to the wrapped handler `f`. -/
inductive RlOutcome where
  | rejected (status : Nat) (message : String) (info : RateInfo) (retry_after : Nat)
  | handled
deriving DecidableEq, Repr

/-- The body of `apply_rate_limit(endpoint, per_tenant, per_ip)`'s
`decorated_function`: an IP-scoped check at the configured limit (when
`per_ip`), then — only if that passed — a tenant-scoped check at ten times the
configured limit (when `per_tenant` and a tenant identity resolves); either
failing check returns a 429 response carrying that check's `rate_info`;
otherwise the wrapped handler runs. Returns the outcome and Redis state. -/
def apply_rate_limit (endpoint : String) (per_tenant per_ip : Bool)
    (req : Request) (s : RedisState) (now : Nat) : RlOutcome × RedisState :=
  let config := get_rate_limit_config endpoint
  let limit := config.limit
  let window := config.window
  let ipStep : Option RlOutcome × RedisState :=
    if per_ip then
      let client_ip := _get_client_ip req
      let r := check_rate_limit s ("ip:" ++ client_ip) endpoint limit window now
      if r.1.1 then (none, r.2)
      else (some (.rejected 429 ("Too many requests from IP " ++ client_ip) r.1.2 (window * 60)),
            r.2)
    else (none, s)
  match ipStep with
  | (some out, s1) => (out, s1)
  | (none, s1) =>
    if per_tenant then
      match resolve_tenant_id req with
      | some tenant_id =>
        let r := check_rate_limit s1 ("tenant:" ++ tenant_id) endpoint (limit * 10) window now
        if r.1.1 then (.handled, r.2)
        else (.rejected 429 "Too many requests from your organization" r.1.2 (window * 60), r.2)
      | none => (.handled, s1)
    else (.handled, s1)


/- ## Authentication module (`src/crmai/auth.py`) -/

/-- Process environment, as read by `os.getenv`. -/
def Env := String → Option String

/-- Errors of the token functions: the `ValueError` raised when
`JWT_SECRET_KEY` is unset (or empty, Python truthiness), and the two
`AuthenticationError`s of `decode_jwt_token` ("Token has expired" /
"Invalid token"). -/
inductive TokenError where
  | secretMissing
  | expired
  | invalid
deriving DecidableEq, Repr

/-- A serialized JWT: the claims payload plus the HMAC-SHA256 signature
computed over it with the signing secret. -/
structure JwtToken where
  payload : JwtPayload
  sig : String
deriving DecidableEq, Repr

/-- Stand-in for HMAC-SHA256: a concrete string function of the secret and the
payload, injective in the payload for a fixed secret, which is the only
property the development relies on. -/
def jwt_mac (secret : String) (p : JwtPayload) : String :=
  "hmac-sha256(" ++ secret ++ "|" ++ p.user_id ++ "|" ++ p.tenant_id ++ "|" ++ p.role ++ "|" ++
    toString p.exp ++ "|" ++ toString p.iat ++ ")"

/-- Embedding of `generate_jwt_token`: builds the payload with `exp = utcnow() + 24h`,
`iat = utcnow()`, reads `JWT_SECRET_KEY` from the environment at call time and
raises `ValueError` when it is falsy, else signs the payload. -/
def generate_jwt_token (env : Env) (user_id tenant_id role : String) (now : Nat) :
    Except TokenError JwtToken :=
  let payload : JwtPayload := ⟨user_id, tenant_id, role, now + 24 * 3600, now⟩
  match env "JWT_SECRET_KEY" with
  | none => .error .secretMissing
  | some secret =>
    if secret = "" then .error .secretMissing
    else .ok ⟨payload, jwt_mac secret payload⟩

/-- Embedding of `decode_jwt_token`: reads `JWT_SECRET_KEY` at call time (`ValueError` when
falsy), then verifies the signature (`jwt.InvalidTokenError` → "Invalid token")
and the `exp` claim (`jwt.ExpiredSignatureError` → "Token has expired"),
returning the payload on success. -/
def decode_jwt_token (env : Env) (token : JwtToken) (now : Nat) :
    Except TokenError JwtPayload :=
  match env "JWT_SECRET_KEY" with
  | none => .error .secretMissing
  | some secret =>
    if secret = "" then .error .secretMissing
    else if token.sig ≠ jwt_mac secret token.payload then .error .invalid
    else if token.payload.exp < now then .error .expired
    else .ok token.payload

/-- The list `required_env_vars` of `app_secure.py`'s `__main__` block. -/
def required_env_vars : List String := ["JWT_SECRET_KEY", "DB_PASSWORD"]

/-- Embedding of `missing_vars = [var for var in required_env_vars if not os.getenv(var)]`. -/
def missing_env_vars (env : Env) : List String :=
  required_env_vars.filter fun v => ! truthyO (env v)

/-- The `__main__` startup gate of `app_secure.py`: the process starts iff no
required environment variable is missing; otherwise it logs and `exit(1)`s. -/
def startup_ok (env : Env) : Bool := (missing_env_vars env).isEmpty

/- ## Password verification (bcrypt model) -/

/-- Modelled from the bcrypt library (not repository code): a stored hash is a
well-formed bcrypt string when it carries the `$2b$` version prefix and the
standard 60-character length. -/
def isBcryptHash (h : String) : Bool :=
  decide (h.toList.take 4 = "$2b$".toList) && decide (h.toList.length = 60)

/-- Modelled from the bcrypt library: the digest recomputed from a candidate
password and the stored hash's 29-character salt prefix. A concrete stand-in —
the claims depend only on `checkpw`'s totality and raising behaviour, never on
the digest's cryptographic content. -/
def bcryptDigest (password salt : String) : String := salt ++ "*" ++ password

/-- Modelled from the bcrypt library: `bcrypt.checkpw` raises
`ValueError("Invalid salt")` when the stored hash is not a well-formed bcrypt
string, and otherwise returns whether the recomputed digest matches. -/
def bcrypt_checkpw (password hashed : String) : Except String Bool :=
  if isBcryptHash hashed then
    .ok (bcryptDigest password (String.mk (hashed.toList.take 29)) = hashed)
  else .error "Invalid salt"

/-- Embedding of `verify_password` of `auth.py`: a bare `bcrypt.checkpw` call with no
exception handling, so checkpw's `ValueError` on a malformed hash propagates
to the caller. -/
def verify_password (password hashed : String) : Except String Bool :=
  bcrypt_checkpw password hashed

/- ## Email validation -/

/-- Characters of the regex class `[a-zA-Z0-9._%+-]` (local part). -/
def isLocalChar (c : Char) : Bool :=
  c.isAlphanum || c = '.' || c = '_' || c = '%' || c = '+' || c = '-'

/-- Characters of the regex class `[a-zA-Z0-9.-]` (domain part). -/
def isDomainChar (c : Char) : Bool := c.isAlphanum || c = '.' || c = '-'

/-- Split a character list at the first occurrence of `c`, dropping it. -/
def splitAtFirst (c : Char) : List Char → Option (List Char × List Char)
  | [] => none
  | x :: xs =>
    if x = c then some ([], xs)
    else match splitAtFirst c xs with
      | some (a, b) => some (x :: a, b)
      | none => none

/-- Embedding of `validate_email` of `auth.py`: the anchored regex
`[a-zA-Z0-9._%+-]+ @ [a-zA-Z0-9.-]+ . [a-zA-Z]` (the last class repeated two or
more times) matches exactly the strings of shape `local@domain.tld` where
`local` is a nonempty run of local characters up to the first `@`, `domain` is
the nonempty run of domain characters between the `@` and the last dot, and
`tld` is two or more letters after the last dot. -/
def validate_email (email : String) : Bool :=
  match splitAtFirst '@' email.toList with
  | none => false
  | some (localPart, rest) =>
    match splitAtFirst '.' rest.reverse with
    | none => false
    | some (tldRev, domainRev) =>
      decide (localPart ≠ []) && localPart.all isLocalChar &&
      decide (domainRev ≠ []) && domainRev.all isDomainChar &&
      decide (tldRev.length ≥ 2) && tldRev.all Char.isAlpha

/- ## Credential store and `authenticate_user` -/

/-- A row of the `tenants` table (the columns the core reads). -/
structure Tenant where
  id : String
  slug : String
  is_active : Bool
deriving DecidableEq, Repr

/-- A row of the `users` table (the columns the core reads). -/
structure User where
  id : String
  tenant_id : String
  email : String
  password_hash : String
  role : String
  is_active : Bool
deriving DecidableEq, Repr

/-- The credential store contents. -/
structure Db where
  tenants : List Tenant
  users : List User
deriving Repr

/-- The query `SELECT id FROM tenants WHERE slug = %s AND is_active = true`. -/
def findTenantBySlug (db : Db) (slug : String) : Option Tenant :=
  db.tenants.find? fun t => t.slug = slug && t.is_active

/-- The query `SELECT id, email, password_hash, role, is_active FROM users WHERE
email = %s AND tenant_id = %s`. -/
def findUserByEmail (db : Db) (email tenant_id : String) : Option User :=
  db.users.find? fun u => u.email = email && u.tenant_id = tenant_id

/-- The dictionary returned by a successful `authenticate_user`. -/
structure AuthResult where
  user_id : String
  tenant_id : String
  email : String
  role : String
deriving DecidableEq, Repr

/-- Exceptions escaping `authenticate_user`: its own `AuthenticationError`s,
and the `ValueError` that `bcrypt.checkpw` raises on a malformed stored hash
(uncaught in `authenticate_user`). -/
inductive AuthErr where
  | authenticationError (msg : String)
  | valueError (msg : String)
deriving DecidableEq, Repr

/-- Embedding of `authenticate_user` of `auth.py`: email-format check, emptiness check,
active-tenant lookup by slug, user lookup by (email, tenant), active-account
check, then password verification; each failure raises the source's
`AuthenticationError` message. The success branch's `UPDATE users SET
last_login` touches no data the claims observe and is omitted from the
return value, which models the returned dictionary. -/
def authenticate_user (db : Db) (email password tenant_slug : String) :
    Except AuthErr AuthResult :=
  if !validate_email email then .error (.authenticationError "Invalid email format")
  else if email = "" || password = "" || tenant_slug = "" then
    .error (.authenticationError "Email, password, and tenant are required")
  else match findTenantBySlug db tenant_slug with
    | none => .error (.authenticationError "Invalid tenant")
    | some tenant =>
      match findUserByEmail db email tenant.id with
      | none => .error (.authenticationError "Invalid credentials")
      | some user =>
        if !user.is_active then .error (.authenticationError "Account is disabled")
        else match verify_password password user.password_hash with
          | .error msg => .error (.valueError msg)
          | .ok false => .error (.authenticationError "Invalid credentials")
          | .ok true => .ok ⟨user.id, tenant.id, user.email, user.role⟩

/-- An error response as assembled by the `app_secure.py` error handlers:
HTTP status, `error` field, `message` field. -/
structure HttpResponse where
  status : Nat
  error : String
  message : String
deriving DecidableEq, Repr

/-- Embedding of `handle_auth_error`: every `AuthenticationError` becomes HTTP 401 with
`error = "Authentication failed"` and the exception's message. -/
def handle_auth_error (msg : String) : HttpResponse :=
  ⟨401, "Authentication failed", msg⟩

/-- Embedding of `handle_validation_error`: every `ValidationError` becomes HTTP 400 with
`error = "Validation failed"` and the exception's message. -/
def handle_validation_error (msg : String) : HttpResponse :=
  ⟨400, "Validation failed", msg⟩

/-- The failure path of the `/api/auth/login` route: `AuthenticationError`s
propagate to `handle_auth_error`; any other exception is re-raised as
`AuthenticationError("Login failed")`. -/
def login_failure_response : AuthErr → HttpResponse
  | .authenticationError msg => handle_auth_error msg
  | .valueError _ => handle_auth_error "Login failed"

/- ## Request gates -/

/-- Outcome of a decorator gate: short-circuit with an error response, or fall
through to the wrapped handler. -/
inductive GateResult where
  | reject (status : Nat) (error : String)
  | proceed
deriving DecidableEq, Repr

/-- Embedding of `require_role(required_role)`: 401 without an authenticated user, 403
("Insufficient privileges") when the resolved role is neither the required
role nor `admin`, otherwise the handler runs. -/
def require_role (required_role : String) (current_user : Option JwtPayload) : GateResult :=
  match current_user with
  | none => .reject 401 "Authentication required"
  | some u =>
    if u.role ≠ required_role && u.role ≠ "admin" then .reject 403 "Insufficient privileges"
    else .proceed

/-- Embedding of `get_tenant_from_request`: the authenticated user's `tenant_id` when
present, else an active-tenant lookup by the `X-Tenant-Slug` header (`None`
when the header is falsy or no active tenant matches). -/
def get_tenant_from_request (db : Db) (current_user : Option JwtPayload)
    (x_tenant_slug : Option String) : Option String :=
  match current_user with
  | some u => some u.tenant_id
  | none =>
    match x_tenant_slug with
    | some slug =>
      if slug = "" then none
      else (findTenantBySlug db slug).map fun t => t.id
    | none => none

/-- The tenant gate at the top of the `/api/auth/register` route: when
`get_tenant_from_request` yields nothing the route raises
`ValidationError("Tenant required")`, which `handle_validation_error` maps to
HTTP 400. -/
def register_tenant_gate (db : Db) (current_user : Option JwtPayload)
    (x_tenant_slug : Option String) : GateResult :=
  match get_tenant_from_request db current_user x_tenant_slug with
  | none => .reject 400 "Tenant required"
  | some _ => .proceed

/- ## Concrete instances for witnesses and counterexamples -/

/-- A well-formed (per `isBcryptHash`) stored bcrypt hash literal: `$2b$`
prefix, 60 characters. Its character at the digest-separator position is a
letter, so no candidate password recomputes to it under `bcryptDigest` — a
stored hash for a password that is never the supplied one. -/
def storedHash : String :=
  "$2b$12$abcdefghijklmnopqrstuvwxyzABCDEFGHIJKLMNOPQRSTUVWXYZa"

/-- Concrete credential store: one active tenant `acme` and one deactivated
user `a@acme.com`. -/
def dbDisabledUser : Db :=
  ⟨[⟨"t1", "acme", true⟩],
   [⟨"u1", "t1", "a@acme.com", storedHash, "admin", false⟩]⟩

/-- Concrete credential store: one active tenant `acme` and one active user
`a@acme.com`. -/
def dbActiveUser : Db :=
  ⟨[⟨"t1", "acme", true⟩],
   [⟨"u1", "t1", "a@acme.com", storedHash, "admin", true⟩]⟩

/-- A concrete process environment holding both required variables. -/
def envFull : Env := fun k =>
  if k = "JWT_SECRET_KEY" then some "s3cr3t"
  else if k = "DB_PASSWORD" then some "pw" else none

/- # Theorems settling the claims -/

/-- C1: for a fresh `(identifier, endpoint)` pair (its bucket counter reads 0)
with `limit = 5`, `window = 1` minute, six sequential calls to
`check_rate_limit` within the window return allowed with `remaining`
4, 3, 2, 1, 0 and then not-allowed with `remaining = 0`, and the sixth call
leaves the counter at 5 (no further increment). -/
theorem c1_rate_limit_boundary (s : RedisState) (identifier endpoint : String) (now : Nat)
    (hfresh : s (_get_rate_limit_key identifier endpoint 1 now) = 0) :
    ((runRedis identifier endpoint 5 1 (List.replicate 6 now) s).1.map
        fun r => (r.1, r.2.remaining)) =
      [(true, 4), (true, 3), (true, 2), (true, 1), (true, 0), (false, 0)] ∧
    (runRedis identifier endpoint 5 1 (List.replicate 6 now) s).2
        (_get_rate_limit_key identifier endpoint 1 now) = 5 := by
  simp [runRedis, check_rate_limit, hfresh]

/-- Witness for C1 at a concrete fresh pair. -/
theorem c1_rate_limit_boundary_witness :
    ((runRedis "ip:1.2.3.4" "auth_login" 5 1 (List.replicate 6 100) emptyRedis).1.map
        fun r => (r.1, r.2.remaining)) =
      [(true, 4), (true, 3), (true, 2), (true, 1), (true, 0), (false, 0)] ∧
    (runRedis "ip:1.2.3.4" "auth_login" 5 1 (List.replicate 6 100) emptyRedis).2
        (_get_rate_limit_key "ip:1.2.3.4" "auth_login" 1 100) = 5 :=
  c1_rate_limit_boundary emptyRedis "ip:1.2.3.4" "auth_login" 100 rfl

/-- C2: under dual-axis limiting (`per_ip = per_tenant = true`) with a
resolvable tenant identity, the wrapped handler runs iff the IP-scoped check at
the configured limit and the tenant-scoped check at ten times that limit both
allow; a failing IP check yields a 429 carrying the IP check's info, and a
failing tenant check (after a passing IP check) yields a 429 carrying the
tenant check's info. -/
theorem c2_dual_axis_rate_limit (endpoint : String) (req : Request) (s : RedisState) (now : Nat)
    (tid : String) (htid : resolve_tenant_id req = some tid)
    (limit window : Nat) (hcfg : get_rate_limit_config endpoint = ⟨limit, window⟩)
    (ipa : Bool) (ipinfo : RateInfo) (s1 : RedisState)
    (hip : check_rate_limit s ("ip:" ++ _get_client_ip req) endpoint limit window now =
      ((ipa, ipinfo), s1))
    (ta : Bool) (tinfo : RateInfo) (s2 : RedisState)
    (ht : check_rate_limit s1 ("tenant:" ++ tid) endpoint (limit * 10) window now =
      ((ta, tinfo), s2)) :
    ((apply_rate_limit endpoint true true req s now).1 = .handled ↔ ipa = true ∧ ta = true) ∧
    (ipa = false → (apply_rate_limit endpoint true true req s now).1 =
      .rejected 429 ("Too many requests from IP " ++ _get_client_ip req) ipinfo (window * 60)) ∧
    (ipa = true → ta = false → (apply_rate_limit endpoint true true req s now).1 =
      .rejected 429 "Too many requests from your organization" tinfo (window * 60)) := by
  cases ipa <;> cases ta <;>
    simp [apply_rate_limit, hcfg, htid, hip, ht]

/-- Witness for C2: a concrete public request whose IP and tenant checks both
pass, so the handler runs. -/
theorem c2_dual_axis_rate_limit_witness :
    (apply_rate_limit "quote_create" true true
      ⟨none, none, some "9.9.9.9", some "acme", none⟩ emptyRedis 0).1 = .handled :=
  (c2_dual_axis_rate_limit "quote_create" ⟨none, none, some "9.9.9.9", some "acme", none⟩
    emptyRedis 0 "slug:acme" rfl 10 1 rfl true ⟨10, 9, 60, 1⟩ _ rfl
    true ⟨100, 99, 60, 1⟩ _ rfl).1.mpr ⟨rfl, rfl⟩

/-- A string with a nonempty prefix appended to anything is nonempty. -/
theorem string_append_left_ne_empty (a b : String) (ha : a.data ≠ []) : a ++ b ≠ "" := by
  intro h
  have hdata := congrArg String.data h
  simp only [String.data_append] at hdata
  exact ha (List.append_eq_nil.mp hdata).1

/-- C10: when no tenant identity can be determined, `apply_rate_limit` with the
tenant axis enabled behaves exactly as with the tenant axis disabled (only the
IP limit governs); an unauthenticated request with a slug header resolves its
tenant identity to the raw string `slug:<slug>` (no lookup or validation),
while an authenticated request resolves to the token's tenant id, so the two
tenant-axis identifiers differ whenever the tenant id is not literally
`slug:<slug>`. -/
theorem c10_tenant_axis_skip_and_raw_slug_key :
    (∀ endpoint req s now, resolve_tenant_id req = none →
      apply_rate_limit endpoint true true req s now =
        apply_rate_limit endpoint false true req s now) ∧
    (∀ req slug, req.current_user = none → req.x_tenant_slug = some slug → slug ≠ "" →
      resolve_tenant_id req = some ("slug:" ++ slug)) ∧
    (∀ req u, req.current_user = some u → u.tenant_id ≠ "" →
      resolve_tenant_id req = some u.tenant_id) ∧
    (∀ slug tid : String, tid ≠ "slug:" ++ slug →
      "tenant:" ++ ("slug:" ++ slug) ≠ "tenant:" ++ tid) := by
  refine ⟨?_, ?_, ?_, ?_⟩
  · intro endpoint req s now hnone
    simp [apply_rate_limit, hnone]
  · intro req slug hcu hslug hne
    simp [resolve_tenant_id, hcu, hslug, hne, truthyO]
    exact string_append_left_ne_empty "slug:" slug (by decide)
  · intro req u hcu hne
    simp [resolve_tenant_id, hcu, truthyO, hne]
  · intro slug tid hne heq
    apply hne
    have hdata := congrArg String.data heq
    simp only [String.data_append] at hdata
    exact (String.ext (List.append_cancel_left hdata)).symm

/-- Witness for C10: an anonymous request with no slug header is governed by
the IP axis alone, and a concrete slug header yields the raw
`slug:acme` identifier. -/
theorem c10_tenant_axis_skip_and_raw_slug_key_witness :
    apply_rate_limit "default" true true ⟨none, none, some "1.1.1.1", none, none⟩ emptyRedis 0 =
      apply_rate_limit "default" false true ⟨none, none, some "1.1.1.1", none, none⟩ emptyRedis 0 ∧
    resolve_tenant_id ⟨none, none, some "1.1.1.1", some "acme", none⟩ = some ("slug:" ++ "acme") ∧
    "tenant:" ++ ("slug:" ++ "acme") ≠ "tenant:" ++ "7a1f" :=
  ⟨c10_tenant_axis_skip_and_raw_slug_key.1 "default" ⟨none, none, some "1.1.1.1", none, none⟩
      emptyRedis 0 rfl,
   c10_tenant_axis_skip_and_raw_slug_key.2.1 ⟨none, none, some "1.1.1.1", some "acme", none⟩
      "acme" rfl rfl (by decide),
   c10_tenant_axis_skip_and_raw_slug_key.2.2.2 "acme" "7a1f" (by decide)⟩

/-- C3: with a truthy signing secret in the environment, a token issued for
`(u, t, r)` at time `now` decodes — at any time strictly before the 24-hour
expiry, and again at any second such time — to a payload carrying exactly
`u`, `t`, `r`. -/
theorem c3_verify_issue_roundtrip (env : Env) (u t r : String) (now now1 now2 : Nat)
    (hsec : truthyO (env "JWT_SECRET_KEY") = true)
    (h1 : now1 < now + 24 * 3600) (h2 : now2 < now + 24 * 3600) :
    ∃ tok p, generate_jwt_token env u t r now = .ok tok ∧
      decode_jwt_token env tok now1 = .ok p ∧
      decode_jwt_token env tok now2 = .ok p ∧
      p.user_id = u ∧ p.tenant_id = t ∧ p.role = r := by
  rcases henv : env "JWT_SECRET_KEY" with _ | secret
  · simp [truthyO, henv] at hsec
  · have hs : secret ≠ "" := by simpa [truthyO, henv] using hsec
    refine ⟨⟨⟨u, t, r, now + 24 * 3600, now⟩, jwt_mac secret ⟨u, t, r, now + 24 * 3600, now⟩⟩,
      ⟨u, t, r, now + 24 * 3600, now⟩, ?_, ?_, ?_, rfl, rfl, rfl⟩
    · simp [generate_jwt_token, henv, hs]
    · simp [decode_jwt_token, henv, hs]
      omega
    · simp [decode_jwt_token, henv, hs]
      omega

/-- Witness for C3 at a concrete environment, identity and times. -/
theorem c3_verify_issue_roundtrip_witness :
    ∃ tok p, generate_jwt_token envFull "u1" "t1" "admin" 0 = .ok tok ∧
      decode_jwt_token envFull tok 0 = .ok p ∧
      decode_jwt_token envFull tok 86399 = .ok p ∧
      p.user_id = "u1" ∧ p.tenant_id = "t1" ∧ p.role = "admin" :=
  c3_verify_issue_roundtrip envFull "u1" "t1" "admin" 0 0 86399 rfl (by decide) (by decide)

/-- C4: a falsy `JWT_SECRET_KEY` makes the startup gate fail (fatal at
startup), and in any environment that passed the startup gate neither issuing
nor verifying a token can fail with the missing-secret `ValueError`. -/
theorem c4_secret_missing_is_startup_fatal (env : Env) :
    (truthyO (env "JWT_SECRET_KEY") = false → startup_ok env = false) ∧
    (startup_ok env = true →
      (∀ u t r now, generate_jwt_token env u t r now ≠ .error .secretMissing) ∧
      (∀ tok now, decode_jwt_token env tok now ≠ .error .secretMissing)) := by
  constructor
  · intro h
    simp [startup_ok, missing_env_vars, required_env_vars, h]
  · intro h
    have hj : truthyO (env "JWT_SECRET_KEY") = true := by
      by_contra hc
      have hc' : truthyO (env "JWT_SECRET_KEY") = false := by
        cases htv : truthyO (env "JWT_SECRET_KEY") <;> simp_all
      simp [startup_ok, missing_env_vars, required_env_vars, hc'] at h
    rcases henv : env "JWT_SECRET_KEY" with _ | secret
    · simp [truthyO, henv] at hj
    · have hs : secret ≠ "" := by simpa [truthyO, henv] using hj
      constructor
      · intro u t r now
        simp [generate_jwt_token, henv, hs]
      · intro tok now
        simp only [decode_jwt_token, henv, hs, if_false]
        split
        · simp
        · split <;> simp

/-- Witness for C4: an empty environment fails startup; the full environment
passes and token operations cannot report a missing secret. -/
theorem c4_secret_missing_is_startup_fatal_witness :
    startup_ok (fun _ => none) = false ∧
    generate_jwt_token envFull "u1" "t1" "admin" 0 ≠ .error .secretMissing ∧
    decode_jwt_token envFull ⟨⟨"u1", "t1", "admin", 86400, 0⟩, "garbage"⟩ 0 ≠
      .error .secretMissing :=
  ⟨(c4_secret_missing_is_startup_fatal (fun _ => none)).1 rfl,
   ((c4_secret_missing_is_startup_fatal envFull).2 rfl).1 "u1" "t1" "admin" 0,
   ((c4_secret_missing_is_startup_fatal envFull).2 rfl).2 ⟨⟨"u1", "t1", "admin", 86400, 0⟩, "garbage"⟩ 0⟩

/-- C5 counterexample: on a malformed stored hash, `verify_password`
propagates bcrypt's `ValueError("Invalid salt")` instead of returning
`false`. -/
theorem c5_counterexample_malformed_hash_raises :
    verify_password "Passw0rd" "not-a-bcrypt-hash" = .error "Invalid salt" ∧
    verify_password "Passw0rd" "not-a-bcrypt-hash" ≠ .ok false := by
  refine ⟨rfl, fun h => ?_⟩
  exact Except.noConfusion h

/-- C5 (amended): `verify_password` returns a boolean on every well-formed
bcrypt hash, but on a malformed hash the underlying `bcrypt.checkpw` raises
`ValueError("Invalid salt")` and `verify_password` propagates it to the
caller rather than returning `false`. -/
theorem c5_verify_password_raise_behaviour (password hashed : String) :
    (isBcryptHash hashed = true → ∃ b, verify_password password hashed = .ok b) ∧
    (isBcryptHash hashed = false → verify_password password hashed = .error "Invalid salt") := by
  constructor <;> intro h <;> simp [verify_password, bcrypt_checkpw, h]

/-- Witness for C5 (amended) at a concrete well-formed and a concrete
malformed hash. -/
theorem c5_verify_password_raise_behaviour_witness :
    (∃ b, verify_password "Passw0rd" storedHash = .ok b) ∧
    verify_password "Passw0rd" "x" = .error "Invalid salt" :=
  ⟨(c5_verify_password_raise_behaviour "Passw0rd" storedHash).1 rfl,
   (c5_verify_password_raise_behaviour "Passw0rd" "x").2 rfl⟩

/-- C6 counterexample: against the same active tenant and with the same wrong
password, an unknown email is answered with "Invalid credentials" while an
existing (but deactivated) account is answered with "Account is disabled" —
the two failure responses differ, revealing that the account exists. -/
theorem c6_counterexample_disabled_account_distinguishable :
    authenticate_user dbDisabledUser "ghost@acme.com" "Wrongpass1" "acme" =
      .error (.authenticationError "Invalid credentials") ∧
    authenticate_user dbDisabledUser "a@acme.com" "Wrongpass1" "acme" =
      .error (.authenticationError "Account is disabled") ∧
    findUserByEmail dbDisabledUser "a@acme.com" "t1" ≠ none ∧
    verify_password "Wrongpass1" storedHash = .ok false ∧
    login_failure_response (.authenticationError "Invalid credentials") ≠
      login_failure_response (.authenticationError "Account is disabled") := by
  refine ⟨rfl, rfl, fun h => Option.noConfusion h, rfl, fun h => ?_⟩
  have := congrArg HttpResponse.message h
  exact absurd this (by decide)

/-- C6 (amended): the "user not found" and "wrong password" failures against
the same active tenant produce identical responses (both the
`AuthenticationError` message and the HTTP response are the same), provided
the existing account is active; a deactivated account instead yields the
distinct "Account is disabled" response. -/
theorem c6_auth_failures_indistinguishable (db : Db)
    (email1 email2 password1 password2 slug : String) (tenant : Tenant) (user : User)
    (hv1 : validate_email email1 = true) (hv2 : validate_email email2 = true)
    (hp1 : password1 ≠ "") (hp2 : password2 ≠ "") (hs : slug ≠ "")
    (htenant : findTenantBySlug db slug = some tenant)
    (hnone : findUserByEmail db email1 tenant.id = none)
    (huser : findUserByEmail db email2 tenant.id = some user)
    (hactive : user.is_active = true)
    (hwrong : verify_password password2 user.password_hash = .ok false) :
    authenticate_user db email1 password1 slug =
      authenticate_user db email2 password2 slug ∧
    authenticate_user db email1 password1 slug =
      .error (.authenticationError "Invalid credentials") ∧
    login_failure_response (.authenticationError "Invalid credentials") =
      ⟨401, "Authentication failed", "Invalid credentials"⟩ := by
  have he1 : email1 ≠ "" := by
    intro h
    rw [h] at hv1
    exact absurd hv1 (by decide)
  have he2 : email2 ≠ "" := by
    intro h
    rw [h] at hv2
    exact absurd hv2 (by decide)
  have ha : authenticate_user db email1 password1 slug =
      .error (.authenticationError "Invalid credentials") := by
    simp [authenticate_user, hv1, he1, hp1, hs, htenant, hnone]
  have hb : authenticate_user db email2 password2 slug =
      .error (.authenticationError "Invalid credentials") := by
    simp [authenticate_user, hv2, he2, hp2, hs, htenant, huser, hactive, hwrong]
  exact ⟨ha.trans hb.symm, ha, rfl⟩

/-- Witness for C6 (amended): concrete store with an active user; unknown
email and wrong password give the same response. -/
theorem c6_auth_failures_indistinguishable_witness :
    authenticate_user dbActiveUser "ghost@acme.com" "Wrongpass1" "acme" =
      authenticate_user dbActiveUser "a@acme.com" "Wrongpass1" "acme" ∧
    authenticate_user dbActiveUser "ghost@acme.com" "Wrongpass1" "acme" =
      .error (.authenticationError "Invalid credentials") ∧
    login_failure_response (.authenticationError "Invalid credentials") =
      ⟨401, "Authentication failed", "Invalid credentials"⟩ :=
  c6_auth_failures_indistinguishable dbActiveUser "ghost@acme.com" "a@acme.com"
    "Wrongpass1" "Wrongpass1" "acme" ⟨"t1", "acme", true⟩
    ⟨"u1", "t1", "a@acme.com", storedHash, "admin", true⟩
    rfl rfl (by decide) (by decide) (by decide) rfl rfl rfl rfl rfl

/-- C7: for an authenticated request, the role gate passes exactly when the
resolved role equals the required role or is `admin`; any other combination is
rejected with HTTP 403 "Insufficient privileges" (the handler does not run). -/
theorem c7_require_role_admin_escape (required_role : String) (u : JwtPayload) :
    (require_role required_role (some u) = .proceed ↔
      (u.role = required_role ∨ u.role = "admin")) ∧
    (¬(u.role = required_role ∨ u.role = "admin") →
      require_role required_role (some u) = .reject 403 "Insufficient privileges") := by
  by_cases h1 : u.role = required_role <;> by_cases h2 : u.role = "admin" <;>
    simp [require_role, h1, h2]

/-- Witness for C7: an admin passes a `staff` requirement; a customer is
rejected with 403. -/
theorem c7_require_role_admin_escape_witness :
    require_role "staff" (some ⟨"u1", "t1", "admin", 86400, 0⟩) = .proceed ∧
    require_role "staff" (some ⟨"u2", "t1", "customer", 86400, 0⟩) =
      .reject 403 "Insufficient privileges" :=
  ⟨(c7_require_role_admin_escape "staff" ⟨"u1", "t1", "admin", 86400, 0⟩).1.mpr
      (Or.inr rfl),
   (c7_require_role_admin_escape "staff" ⟨"u2", "t1", "customer", 86400, 0⟩).2
      (by decide)⟩

/-- C8 counterexample: a request whose slug header resolves to no active
tenant is indeed stopped, but on the header path the rejection is the
`ValidationError("Tenant required")` of the register route — HTTP 400, not a
401 Unauthenticated-equivalent "invalid tenant" response. -/
theorem c8_counterexample_header_path_rejects_with_400 :
    get_tenant_from_request dbDisabledUser none (some "ghost") = none ∧
    register_tenant_gate dbDisabledUser none (some "ghost") =
      .reject 400 "Tenant required" ∧
    handle_validation_error "Tenant required" =
      ⟨400, "Validation failed", "Tenant required"⟩ ∧
    (400 : Nat) ≠ 401 := by
  exact ⟨rfl, rfl, rfl, by decide⟩

/-- C8 (amended): header-based tenant resolution never yields an id for an
unknown or inactive slug — any id it returns belongs to an active tenant with
that slug — and when resolution fails the register route short-circuits,
though with a 400 "Tenant required" validation response rather than a 401
Unauthenticated "invalid tenant" error (only the credential-login path raises
the 401 "Invalid tenant"). -/
theorem c8_slug_resolution_only_active (db : Db) :
    (∀ slug tid, get_tenant_from_request db none (some slug) = some tid →
      ∃ t, t ∈ db.tenants ∧ t.slug = slug ∧ t.is_active = true ∧ t.id = tid) ∧
    (∀ current_user slugHeader,
      get_tenant_from_request db current_user slugHeader = none →
      register_tenant_gate db current_user slugHeader = .reject 400 "Tenant required") ∧
    (∀ email password slug, findTenantBySlug db slug = none → validate_email email = true →
      email ≠ "" → password ≠ "" → slug ≠ "" →
      authenticate_user db email password slug =
        .error (.authenticationError "Invalid tenant")) := by
  refine ⟨?_, ?_, ?_⟩
  · intro slug tid h
    by_cases hs : slug = ""
    · simp [get_tenant_from_request, hs] at h
    · simp only [get_tenant_from_request, hs, if_false, Option.map_eq_some'] at h
      obtain ⟨t, ht, htid⟩ := h
      have hmem := List.mem_of_find?_eq_some ht
      have hp := List.find?_some ht
      simp only [Bool.and_eq_true, decide_eq_true_eq] at hp
      exact ⟨t, hmem, hp.1, hp.2, htid⟩
  · intro current_user slugHeader h
    simp [register_tenant_gate, h]
  · intro email password slug hnone hv he hp hs
    simp [authenticate_user, hv, he, hp, hs, hnone]

/-- Witness for C8 (amended) at concrete store, slugs and credentials. -/
theorem c8_slug_resolution_only_active_witness :
    (∃ t, t ∈ dbDisabledUser.tenants ∧ t.slug = "acme" ∧ t.is_active = true ∧
      t.id = "t1") ∧
    register_tenant_gate dbDisabledUser none (some "nosuch") =
      .reject 400 "Tenant required" ∧
    authenticate_user dbDisabledUser "a@acme.com" "Passw0rd" "nosuch" =
      .error (.authenticationError "Invalid tenant") :=
  ⟨(c8_slug_resolution_only_active dbDisabledUser).1 "acme" "t1" rfl,
   (c8_slug_resolution_only_active dbDisabledUser).2.1 none (some "nosuch") rfl,
   (c8_slug_resolution_only_active dbDisabledUser).2.2 "a@acme.com" "Passw0rd" "nosuch"
      rfl rfl (by decide) (by decide) (by decide)⟩

/-- C9 counterexample: with `limit = 1, window = 1min` and sequential requests
at seconds 59 and 61 on a fresh pair, the fast path (fixed buckets, reset at
the bucket boundary) admits both, while the durable fallback (true sliding
window over `created_at`) denies the second — the two counting schemes are not
equivalent. -/
theorem c9_counterexample_bucket_vs_sliding_window :
    ((runRedis "ip:1.2.3.4" "default" 1 1 [59, 61] emptyRedis).1.map fun r => r.1) =
      [true, true] ∧
    ((runDb "ip:1.2.3.4" "default" 1 1 [59, 61] []).1.map fun r => r.1) =
      [true, false] := by
  constructor <;> rfl

/-- Bounds of a Euclidean bucket: `x / m = b` pins `x` into `[m*b, m*b + m)`. -/
theorem bucket_bounds (x m b : Nat) (hm : 0 < m) (h : x / m = b) :
    m * b ≤ x ∧ x < m * b + m := by
  have h1 := Nat.div_add_mod x m
  have h2 := Nat.mod_lt x hm
  rw [h] at h1
  omega

/-- Coupled-state induction for C9: when every timestamp lies in bucket `b`,
a Redis state holding `n` in bucket `b`'s counter (and nothing else) and a
`rate_limits` table holding `n` matching rows all created inside bucket `b`
produce identical result sequences on the two paths. -/
theorem redis_db_equiv_aux (identifier endpoint : String) (limit w b : Nat) (hw : 0 < w)
    (ts : List Nat) (hts : ∀ t ∈ ts, t / (w * 60) = b)
    (n : Nat) (rows : List RateRow)
    (hlen : rows.length = n)
    (hrows : ∀ r ∈ rows, r.identifier = identifier ∧ r.endpoint = endpoint ∧
      r.created_at / (w * 60) = b) :
    (runRedis identifier endpoint limit w ts
        (fun k => if k = keyOfBucket identifier endpoint b then n else 0)).1 =
      (runDb identifier endpoint limit w ts rows).1 := by
  induction ts generalizing n rows with
  | nil => rfl
  | cons t ts ih =>
    have hb : t / (w * 60) = b := hts t (List.mem_cons_self t ts)
    have hts2 : ∀ t' ∈ ts, t' / (w * 60) = b := fun t' ht' =>
      hts t' (List.mem_cons_of_mem t ht')
    have hmw : 0 < w * 60 := by positivity
    have htb := bucket_bounds t (w * 60) b hmw hb
    have hcount : (rows.countP fun r => rowInWindow identifier endpoint w t r) = n := by
      rw [← hlen]
      apply List.countP_eq_length.mpr
      intro r hr
      obtain ⟨h1, h2, h3⟩ := hrows r hr
      have hrb := bucket_bounds r.created_at (w * 60) b hmw h3
      simp only [rowInWindow, h1, h2, Bool.and_eq_true, decide_eq_true_eq]
      exact ⟨⟨trivial, trivial⟩, by omega⟩
    have hkey : _get_rate_limit_key identifier endpoint w t =
        keyOfBucket identifier endpoint b := by
      rw [_get_rate_limit_key, hb]
    have hsval : (fun k => if k = keyOfBucket identifier endpoint b then n else 0)
        (_get_rate_limit_key identifier endpoint w t) = n := by
      rw [hkey]
      simp
    have hredis : check_rate_limit
        (fun k => if k = keyOfBucket identifier endpoint b then n else 0)
        identifier endpoint limit w t =
        if limit ≤ n then
          ((false, ⟨limit, 0, t + w * 60, w⟩),
            fun k => if k = keyOfBucket identifier endpoint b then n else 0)
        else ((true, ⟨limit, limit - (n + 1), t + w * 60, w⟩),
            fun k => if k = keyOfBucket identifier endpoint b then n + 1 else 0) := by
      simp only [check_rate_limit, hsval, ge_iff_le]
      by_cases hle : limit ≤ n
      · simp [hle]
      · simp only [if_neg hle]
        refine congrArg (Prod.mk _) ?_
        funext k
        by_cases hk : k = keyOfBucket identifier endpoint b <;> simp [hk, hkey]
    have hdb : _check_rate_limit_db rows identifier endpoint limit w t =
        if limit ≤ n then ((false, ⟨limit, 0, t + w * 60, w⟩), rows)
        else ((true, ⟨limit, limit - (n + 1), t + w * 60, w⟩),
            rows ++ [⟨identifier, endpoint, t⟩]) := by
      simp only [_check_rate_limit_db, hcount, ge_iff_le]
    simp only [runRedis, runDb, hredis, hdb]
    by_cases hle : limit ≤ n
    · simp only [if_pos hle]
      exact congrArg
        (List.cons ((false, ⟨limit, 0, t + w * 60, w⟩) : Bool × RateInfo))
        (ih hts2 n rows hlen hrows)
    · simp only [if_neg hle]
      refine congrArg
        (List.cons ((true, ⟨limit, limit - (n + 1), t + w * 60, w⟩) : Bool × RateInfo)) ?_
      refine ih hts2 (n + 1) (rows ++ [⟨identifier, endpoint, t⟩]) ?_ ?_
      · simp [hlen]
      · intro r hr
        rcases List.mem_append.mp hr with hr | hr
        · exact hrows r hr
        · rcases List.mem_singleton.mp hr with rfl
          exact ⟨rfl, rfl, hb⟩

/-- C9 (amended): the fast-path and fallback counting schemes admit and deny
exactly the same sequential requests as long as the whole sequence falls
inside a single time bucket of the window; across a bucket boundary the
fixed-bucket fast path and the sliding-window fallback diverge (see the
counterexample at seconds 59 and 61). -/
theorem c9_fallback_matches_fast_path_within_bucket (identifier endpoint : String)
    (limit w b : Nat) (hw : 0 < w) (ts : List Nat)
    (hts : ∀ t ∈ ts, t / (w * 60) = b) :
    (runRedis identifier endpoint limit w ts emptyRedis).1 =
      (runDb identifier endpoint limit w ts []).1 := by
  have h0 : emptyRedis =
      (fun k => if k = keyOfBucket identifier endpoint b then 0 else 0) := by
    funext k
    by_cases hk : k = keyOfBucket identifier endpoint b <;> simp [emptyRedis, hk]
  rw [h0]
  exact redis_db_equiv_aux identifier endpoint limit w b hw ts hts 0 [] rfl (by simp)

/-- Witness for C9 (amended): three requests inside bucket 0 of a one-minute
window get identical answers from both paths. -/
theorem c9_fallback_matches_fast_path_within_bucket_witness :
    (runRedis "ip:1.2.3.4" "default" 2 1 [0, 30, 59] emptyRedis).1 =
      (runDb "ip:1.2.3.4" "default" 2 1 [0, 30, 59] []).1 :=
  c9_fallback_matches_fast_path_within_bucket "ip:1.2.3.4" "default" 2 1 0
    (by decide) [0, 30, 59] (by decide)
